import Mathlib

/-!
# Verification of the u-root secure-launch measurement core

Shallow embedding of three source files:

* `src/pkg/securelaunch/measurement/events.go` — the event encoder
  (`marshalPcrEvent`) and the event sink caller (`sendEventToSysfs`);
* `src/cmds/core/sluinit/uinit.go` — the boot orchestrator (`main`,
  `unmountAndExit`, `checkDebugFlag`) and the netroot descriptor parsing
  (`scanIscsiDrives`);
* the alternate sluinit variant appended to `src/pkg/gzip/gunzip.go`
  (its own `main`, `init`, and `scanIscsiDrives` with portal-group
  handling).

Machine integers are `Nat` with explicit truncation where overflow
matters; byte sequences are `List Nat`; fallible operations return an
explicit result type.  External collaborators (TPM, policy, collectors,
the iSCSI mount library, the event log) are parameters of the embedded
functions: the embedding quantifies over their outcomes.
-/

/-! ## Event encoder (`marshalPcrEvent`, events.go lines 20–62) -/

/-- Little-endian 4-byte encoding of a 32-bit value, as `binary.Write`
with `binary.LittleEndian` emits a `uint32`.  Values ≥ 2^32 are
truncated to their low 32 bits, as the Go `uint32` type would. -/
def le32 (n : Nat) : List Nat :=
  [n % 256, n / 256 % 256, n / 65536 % 256, n / 16777216 % 256]

/-- Little-endian decoding of the first four bytes of a byte list. -/
def dle32 (bs : List Nat) : Nat :=
  bs.getD 0 0 + 256 * bs.getD 1 0 + 65536 * bs.getD 2 0 + 16777216 * bs.getD 3 0

/-- Modelled from the spec: the constant `hashAlgo = tss.HashSHA256`
(package `pkg/tss` is not among the source files).  The spec's encoder
contract lists the field as `u32 algorithmId (constant: SHA-256
identifier)`, so it is modelled as the 32-bit TPM algorithm identifier
for SHA-256 (0x000B), written as one little-endian u32. -/
def hashAlgo : Nat := 0xB

/-- `marshalPcrEvent` (events.go): writes, little-endian and without
padding, u32 pcr, u32 slaunchType = 0x400 + 0x102, u32 count = 1, then
for each of the `count` digests u32 hashAlgo followed by the digest
bytes verbatim, then u32 len(eventDesc), then the description bytes.
`binary.Write` into a `bytes.Buffer` cannot fail on these argument
types, so the embedding is the pure byte sequence. -/
def marshalPcrEvent (pcr : Nat) (h : List Nat) (eventDesc : List Nat) : List Nat :=
  let baseTypeTXT : Nat := 0x400
  let slaunchType : Nat := baseTypeTXT + 0x102
  let count : Nat := 1
  let eventDescLen : Nat := eventDesc.length
  le32 pcr ++ le32 slaunchType ++ le32 count ++
    (List.replicate count (le32 hashAlgo ++ h)).flatten ++
    le32 eventDescLen ++ eventDesc

/-! ## Event sink caller (`sendEventToSysfs`, events.go lines 65–77)

The Go function binds `b, err := marshalPcrEvent(...)`; since the
marshal step cannot fail, `err` is `nil` at the point where
`eventlog.Add(b)` is consulted.  The source then reads

    if e := eventlog.Add(b); e != nil {
        return err
    }

returning the stale `err` (nil) rather than `e`.  The embedding keeps
that flow exactly; `add` models `eventlog.Add`, returning `some msg` on
a device error and `none` on success. -/

/-- `sendEventToSysfs` (events.go): marshals the event and hands it to
the event log; mirrors the source's error plumbing, including the
`return err` in the `eventlog.Add` error branch. -/
def sendEventToSysfs (add : List Nat → Option String) (h : List Nat) (pcr : Nat)
    (eventDesc : List Nat) : Option String :=
  let b := marshalPcrEvent pcr h eventDesc
  let err : Option String := none
  match add b with
  | some _ => err
  | none => none

/-! ## Boot orchestrator (`main` / `unmountAndExit`, uinit.go lines 64–141)

The orchestrator's external collaborators are modelled by an
environment recording each step's outcome: whether `scanIscsiDrives`
failed, how many volumes a successful scan attached, whether `tpm.New`,
`policy.Get`, `Launcher.MeasureKernel`, `EventLog.Parse`,
`ClearPersistQueue` and `Launcher.Boot` fail, and the per-collector
results of `Collect`.  The run is a function from that environment to a
record of the observable events of the execution: a direct transcription
of `main`'s control flow, where each `return` after the
`defer unmountAndExit()` line runs the deferred cleanup, and a
successful `Boot` transfers control away (kexec), so the deferred
cleanup never runs on that path. -/

/-- The spec's orchestrator states (§3, OrchestratorState). -/
inductive OState where
  | initial
  | anchorAcquired
  | policyAcquired
  | evidenceCollected
  | kernelMeasured
  | logFinalized
  | persisted
  | unmounted
  | launched
  | failed
  deriving DecidableEq, Repr

/-- Outcomes of the orchestrator's external collaborators for one run. -/
structure Env where
  scanErr : Bool
  mounts : Nat
  tpmErr : Bool
  policyErr : Bool
  collectorErrs : List Bool
  measureErr : Bool
  parseLogErr : Bool
  persistErr : Bool
  bootErr : Bool
  debug : Bool
  deriving DecidableEq, Repr

/-- Observable events of one orchestrator run. -/
structure RunState where
  mounts : Nat
  released : Nat
  unmountAllCalls : Nat
  cleanupRuns : Nat
  graceDelays : Nat
  exitStatus : Option Nat
  tpmInvoked : Bool
  scanErrLogged : Bool
  collectorsInvoked : Nat
  collectorErrsLogged : Nat
  measureInvoked : Bool
  bootInvoked : Bool
  unmountCallsAtBoot : Nat
  visited : List OState
  deriving DecidableEq, Repr

/-- Modelled from the spec: `slaunch.UnmountAll` (package
`pkg/securelaunch` is not among the source files).  The spec's
mount-release collaborator `releaseAll()` releases every currently
mounted volume, best-effort, and release is idempotent — releasing
when nothing is mounted releases nothing. -/
def UnmountAll (s : RunState) : RunState :=
  { s with
    mounts := 0
    released := s.released + s.mounts
    unmountAllCalls := s.unmountAllCalls + 1 }

/-- `unmountAndExit` (uinit.go lines 129–141): releases all mounted
volumes, sleeps the 5-second grace delay, dumps buffered logs (the log
side is modelled separately below), and terminates the process with
exit status 1. -/
def unmountAndExit (s : RunState) : RunState :=
  let s := UnmountAll s
  { s with
    cleanupRuns := s.cleanupRuns + 1
    graceDelays := s.graceDelays + 1
    exitStatus := some 1
    visited := s.visited ++ [OState.failed] }

/-- `main` (uinit.go lines 64–127), transcribed step by step.  Step 0
runs `scanIscsiDrives`; on error the orchestrator logs and continues.
`defer unmountAndExit()` is registered next, so every subsequent
`return` ends in the cleanup; a successful `Boot` does not return, so
the deferred cleanup never runs on the success path. -/
def runOrchestrator (env : Env) : RunState :=
  let s : RunState :=
    { mounts := if env.scanErr then 0 else env.mounts
      released := 0
      unmountAllCalls := 0
      cleanupRuns := 0
      graceDelays := 0
      exitStatus := none
      tpmInvoked := false
      scanErrLogged := env.scanErr
      collectorsInvoked := 0
      collectorErrsLogged := 0
      measureInvoked := false
      bootInvoked := false
      unmountCallsAtBoot := 0
      visited := [OState.initial] }
  -- Step 1: get TPM handle.
  let s := { s with tpmInvoked := true }
  if env.tpmErr then unmountAndExit s
  else
    let s := { s with visited := s.visited ++ [OState.anchorAcquired] }
    -- Step 2: locate and parse the secure-launch policy.
    if env.policyErr then unmountAndExit s
    else
      let s := { s with visited := s.visited ++ [OState.policyAcquired] }
      -- Step 3: run every collector; a failing Collect is logged only.
      let s :=
        { s with
          collectorsInvoked := env.collectorErrs.length
          collectorErrsLogged := env.collectorErrs.count true
          visited := s.visited ++ [OState.evidenceCollected] }
      -- Step 4: measure the target kernel.
      let s := { s with measureInvoked := true }
      if env.measureErr then unmountAndExit s
      else
        let s := { s with visited := s.visited ++ [OState.kernelMeasured] }
        -- Step 5: parse event logs.
        if env.parseLogErr then unmountAndExit s
        else
          let s := { s with visited := s.visited ++ [OState.logFinalized] }
          -- Step 6: flush the persist queue.
          if env.persistErr then unmountAndExit s
          else
            let s := { s with visited := s.visited ++ [OState.persisted] }
            -- Step *: unmount all, on the success path, before launch.
            let s := UnmountAll s
            let s := { s with visited := s.visited ++ [OState.unmounted] }
            -- Step 7: launch.
            let s :=
              { s with
                bootInvoked := true
                unmountCallsAtBoot := s.unmountAllCalls }
            if env.bootErr then unmountAndExit s
            else { s with visited := s.visited ++ [OState.launched] }

/-! ## Netroot descriptor parsing (`scanIscsiDrives`, uinit.go lines 145–199)

`cmdline.Flag` lookups are modelled as `Option String` inputs; the
`iscsinl.MountIscsi` attach collaborator is modelled by its outcome, an
`Except` carrying either the attach error or the mounted device list.
Go's `strings.Split` with a non-empty separator is embedded as
`strSplit`: scan the string left to right, cut at each non-overlapping
occurrence of the separator.  (The separators here — `"::"`, `":@"`,
`","` — are never empty, so Go's per-rune explode branch is out of
scope.) -/

/-- Whether `pre` is a prefix of the character list. -/
def hasPrefixL : List Char → List Char → Bool
  | _, [] => true
  | [], _ :: _ => false
  | c :: cs, d :: ds => c == d && hasPrefixL cs ds

/-- Fuel-indexed scanner behind `strSplit`: at each position, if the
remainder starts with the separator, end the current segment and skip
the separator; otherwise move one character into the current segment.
The fuel only bounds the recursion; `strSplit` supplies enough that the
zero-fuel branch is never taken. -/
def splitFuel (sep : List Char) : Nat → List Char → List Char → List (List Char)
  | 0, rest, acc => [acc.reverse ++ rest]
  | _ + 1, [], acc => [acc.reverse]
  | fuel + 1, c :: cs, acc =>
    if hasPrefixL (c :: cs) sep then
      acc.reverse :: splitFuel sep fuel ((c :: cs).drop sep.length) []
    else
      splitFuel sep fuel cs (c :: acc)

/-- Go's `strings.Split s sep` for non-empty `sep`: the substrings
between consecutive non-overlapping occurrences of `sep`. -/
def strSplit (s sep : String) : List String :=
  (splitFuel sep.data (s.data.length + 1) s.data []).map fun l => String.mk l

/-- Result of one `scanIscsiDrives` run (primary variant). -/
inductive ScanResult where
  | missingFlag (name : String)
  | parseErr (msg : String)
  | attachErr (e : String)
  | mounted (devices : List String)
  deriving DecidableEq, Repr

/-- True exactly on the two constructors in which `iscsinl.MountIscsi`
was called (the call's outcome is what distinguishes them). -/
def ScanResult.attachAttempted : ScanResult → Bool
  | .attachErr _ => true
  | .mounted _ => true
  | _ => false

/-- True exactly on the structural-failure constructor. -/
def ScanResult.isParseErr : ScanResult → Bool
  | .parseErr _ => true
  | _ => false

/-- The three structural rules `scanIscsiDrives` checks on the netroot
value: the `::` split has exactly 3 segments, the `:@` split of the
head has 2 or 3 segments, and its first segment is `"iscsi"`. -/
def structOK (val : String) : Bool :=
  let s := strSplit val "::"
  let tmp := strSplit (s.getD 0 "") ":@"
  (s.length == 3) && (decide (2 ≤ tmp.length)) && (decide (tmp.length ≤ 3))
    && (tmp.getD 0 "" == "iscsi")

/-- `scanIscsiDrives` (uinit.go lines 145–199): looks up `netroot`,
splits on `"::"` (requiring 3 segments), splits the head on `":@"`
(requiring 2 or 3 segments, the first equal to `"iscsi"`), builds the
attach target `tmp[1] + ":" + port`, looks up `rd.iscsi.initiator`, and
only then calls `iscsinl.MountIscsi`. -/
def scanIscsiDrives (netroot initiator : Option String)
    (attachRes : Except String (List String)) : ScanResult :=
  match netroot with
  | none => .missingFlag "netroot"
  | some val =>
    let s := strSplit val "::"
    if s.length ≠ 3 then
      .parseErr (val ++ ": incorrect format ::")
    else
      let port := s.getD 1 ""
      let _volume := s.getD 2 ""
      let tmp := strSplit (s.getD 0 "") ":@"
      if tmp.length > 3 ∨ tmp.length < 2 then
        .parseErr (val ++ ": incorrect format :@")
      else if tmp.getD 0 "" ≠ "iscsi" then
        .parseErr (val ++ ": incorrect format iscsi:")
      else
        let _ip := tmp.getD 1 "" ++ ":" ++ port
        match initiator with
        | none => .missingFlag "rd.iscsi.initiator"
        | some _ =>
          match attachRes with
          | .error e => .attachErr e
          | .ok devs => .mounted devs

/-! ## Alternate sluinit variant (appended to gunzip.go)

Its `scanIscsiDrives` adds portal-group handling: after the same three
structural checks it splits the address `tmp[1]` on `","`; when that
split has exactly 2 segments it executes `group = tmp[2]`, an index
into the `:@` split `tmp`, which is out of range whenever `tmp` has
only 2 elements.  The embedding is total: the out-of-range access is
the `panicked` outcome.  Its `init` runs the scan before `main` and
calls `os.Exit(1)` on any scan error. -/

/-- Result of one alternate-variant `scanIscsiDrives` run.  `attachRes`
models the combined outcome of the `iscsistart` exec. -/
inductive AltScanResult where
  | missingFlag (name : String)
  | parseErr (msg : String)
  | panicked
  | attachErr (e : String)
  | mounted (output : String)
  deriving DecidableEq, Repr

/-- Tail of the alternate scan after the `ip`/`group` assignments:
initiator lookup, default portal group, `ip = ip + ":3260"`, then the
`iscsistart` exec. -/
def altScanTail (ip group : String) (initiator : Option String)
    (attachRes : Except String String) : AltScanResult :=
  match initiator with
  | none => .missingFlag "rd.iscsi.initiator"
  | some _ =>
    let _portalGroup := if group == "" then "1" else ""
    let _ip := ip ++ ":3260"
    match attachRes with
    | .error e => .attachErr e
    | .ok out => .mounted out

/-- Alternate `scanIscsiDrives` (gunzip.go lines 156–221), transcribed
with the same structural checks as the primary variant, plus the
portal-group branch: `tmp2 := Split(tmp[1], ",")`; if `len(tmp2) == 2`
the source executes `group = tmp[2]`, which panics (out of range) when
the `:@` split produced only two segments. -/
def scanIscsiDrivesAlt (netroot initiator : Option String)
    (attachRes : Except String String) : AltScanResult :=
  match netroot with
  | none => .missingFlag "netroot"
  | some val =>
    let s := strSplit val "::"
    if s.length ≠ 3 then
      .parseErr (val ++ ": incorrect format ::")
    else
      let port := s.getD 1 ""
      let _target := s.getD 2 ""
      let tmp := strSplit (s.getD 0 "") ":@"
      if tmp.length > 3 ∨ tmp.length < 2 then
        .parseErr (val ++ ": incorrect format :@")
      else if tmp.getD 0 "" ≠ "iscsi" then
        .parseErr (val ++ ": incorrect format iscsi:")
      else
        let _ := port
        let tmp2 := strSplit (tmp.getD 1 "") ","
        if tmp2.length = 1 then
          altScanTail (tmp.getD 1 "") "" initiator attachRes
        else if tmp2.length = 2 then
          match tmp[2]? with
          | none => .panicked
          | some g => altScanTail (tmp.getD 1 "") g initiator attachRes
        else
          altScanTail "" "" initiator attachRes

/-- How the alternate variant's process starts. -/
inductive AltInitResult where
  | proceed
  | exited (status : Nat)
  | panicked
  deriving DecidableEq, Repr

/-- Alternate variant `init` (gunzip.go lines 223–229): runs
`scanIscsiDrives` before `main`; on any error it logs and calls
`os.Exit(1)`, so `main` (and with it trust-anchor acquisition) is
never reached. -/
def altInit (netroot initiator : Option String)
    (attachRes : Except String String) : AltInitResult :=
  match scanIscsiDrivesAlt netroot initiator attachRes with
  | .missingFlag _ => .exited 1
  | .parseErr _ => .exited 1
  | .attachErr _ => .exited 1
  | .panicked => .panicked
  | .mounted _ => .proceed

/-! ## Logging (`checkDebugFlag` / the dump in `unmountAndExit`)

The Go `log` package has one output destination, initially standard
error; `checkDebugFlag` (uinit.go lines 30–52) leaves it there in debug
mode and redirects it to the `logBuilder` buffer otherwise;
`unmountAndExit` (lines 129–141), in non-debug mode, redirects it to
standard output and prints the accumulated buffer there before
exiting.  The model records every write together with the destination
it went to. -/

/-- A destination a log write can reach. -/
inductive Sink where
  | stderr
  | stdout
  | builder
  deriving DecidableEq, Repr

/-- The `log` package state: current output, the `logBuilder` contents,
and the transcript of all writes. -/
structure LogState where
  out : Sink
  builder : List String
  writes : List (Sink × String)
  deriving DecidableEq, Repr

/-- One `log.Printf`/`log.Println` call: the message goes to the
current output; when that output is the `logBuilder`, it accumulates
there. -/
def logPrint (st : LogState) (m : String) : LogState :=
  { st with
    writes := st.writes ++ [(st.out, m)]
    builder := if st.out = Sink.builder then st.builder ++ [m] else st.builder }

/-- The `log` package's initial state: output is standard error. -/
def initLogState : LogState :=
  { out := Sink.stderr, builder := [], writes := [] }

/-- `checkDebugFlag` (uinit.go lines 30–52): in debug mode prints one
notice and leaves the output on standard error; otherwise prints the
four preamble notices to standard error, redirects the output to
`logBuilder` (`log.SetOutput(&logBuilder)`), and prints the initial
empty line into it. -/
def checkDebugFlagLog (debug : Bool) : LogState :=
  if debug then
    logPrint initLogState "debug flag is set. logging everything to stdout"
  else
    let st := logPrint initLogState "debug flag is not set, only errors logged to stderr"
    let st := logPrint st "debug flag is not set, logs written to file sluinit_log"
    let st := logPrint st "collecting measurements before kexec. please wait..."
    let st := logPrint st "This could take a couple of minutes"
    let st := { st with out := Sink.builder }
    logPrint st ""

/-- The log side of `unmountAndExit` (uinit.go lines 134–139): in
non-debug mode, redirect the output to standard output
(`log.SetOutput(os.Stdout)`), print two notices, then print the whole
accumulated `logBuilder` text; in debug mode do nothing. -/
def unmountAndExitDump (debug : Bool) (st : LogState) : LogState :=
  if debug then st
  else
    let st := { st with out := Sink.stdout }
    let st := logPrint st "exiting on error. log output set back to stdout"
    let st := logPrint st "len="
    logPrint st (String.join st.builder)

/-- The logging transcript of one run: `checkDebugFlag`, then the run's
informational messages through `log.Printf`/`slaunch.Debug`, then — on
a failure exit — the dump in `unmountAndExit`. -/
def runLog (debug : Bool) (msgs : List String) (fails : Bool) : LogState :=
  let st := checkDebugFlagLog debug
  let st := msgs.foldl logPrint st
  if fails then unmountAndExitDump debug st else st

/-! ## Theorems: encoder and event sink -/

/-- Claim C3: the encoder's output is the concatenation, with no
padding, of little-endian u32 pcr, u32 eventType (0x400 + 0x102),
u32 digestCount (1), u32 algorithmId, the digest verbatim,
u32 descriptionLength = len(description), then the description; its
length is 16 + len(digest) + 4 + len(description), and its first four
bytes decode little-endian to the PCR index. -/
theorem marshalPcrEvent_layout (pcr : Nat) (h d : List Nat)
    (hp : pcr < 4294967296) :
    marshalPcrEvent pcr h d =
        le32 pcr ++ le32 (0x400 + 0x102) ++ le32 1 ++ le32 hashAlgo ++ h ++
          le32 d.length ++ d ∧
      (marshalPcrEvent pcr h d).length = 16 + h.length + 4 + d.length ∧
      dle32 ((marshalPcrEvent pcr h d).take 4) = pcr := by
  refine ⟨by simp [marshalPcrEvent], ?_, ?_⟩
  · simp [marshalPcrEvent, le32]
    omega
  · simp [marshalPcrEvent, le32, dle32, List.take]
    omega

theorem marshalPcrEvent_layout_witness :
    marshalPcrEvent 5 [9] [7] =
        le32 5 ++ le32 (0x400 + 0x102) ++ le32 1 ++ le32 hashAlgo ++ [9] ++
          le32 [7].length ++ [7] ∧
      (marshalPcrEvent 5 [9] [7]).length = 16 + [9].length + 4 + [7].length ∧
      dle32 ((marshalPcrEvent 5 [9] [7]).take 4) = 5 :=
  marshalPcrEvent_layout 5 [9] [7] (by decide)

/-- Claim C8, counterexample: encoding PCR 17, the 32-byte zero digest
and the four-byte description "test" does not yield 60 bytes (it yields
16 + 32 + 4 + 4 = 56, as the spec's own length formula gives). -/
theorem marshalPcrEvent_17_test_not_60 :
    (marshalPcrEvent 17 (List.replicate 32 0) [116, 101, 115, 116]).length ≠ 60 := by
  decide

/-- Claim C8 (amended): encoding PCR 17, the 32-byte zero digest and
description "test" yields a 56-byte sequence whose bytes[0..4] decode
little-endian to 17, bytes[16..48] are the 32 zero bytes, bytes[48..52]
decode little-endian to 4, and bytes[52..56] are the ASCII bytes of
"test". -/
theorem marshalPcrEvent_17_zero32_test :
    (marshalPcrEvent 17 (List.replicate 32 0) [116, 101, 115, 116]).length = 56 ∧
      dle32 ((marshalPcrEvent 17 (List.replicate 32 0) [116, 101, 115, 116]).take 4) = 17 ∧
      ((marshalPcrEvent 17 (List.replicate 32 0) [116, 101, 115, 116]).drop 16).take 32 =
        List.replicate 32 0 ∧
      dle32 (((marshalPcrEvent 17 (List.replicate 32 0) [116, 101, 115, 116]).drop 48).take 4) = 4 ∧
      ((marshalPcrEvent 17 (List.replicate 32 0) [116, 101, 115, 116]).drop 52).take 4 =
        [116, 101, 115, 116] := by
  decide

/-- Claim C1: contrary to the claim, `sendEventToSysfs` never reports a
failure of `eventlog.Add` — the error branch returns the stale nil
marshal error, so the function returns `none` for every digest, PCR
index, description and event-log outcome, silently reporting success
even when the log write was rejected. -/
theorem sendEventToSysfs_swallows_add_error (add : List Nat → Option String)
    (h : List Nat) (pcr : Nat) (d : List Nat) :
    sendEventToSysfs add h pcr d = none := by
  cases hadd : add (marshalPcrEvent pcr h d) <;> simp [sendEventToSysfs, hadd]


/-! ## Theorems: boot orchestrator -/

/-- Claim C2: whenever kernel measurement runs and fails (the TPM and
policy steps having succeeded), the cleanup runs exactly once, all
previously attached volumes are released by the one `UnmountAll` call,
the process exits with the non-zero status 1, and `Boot` is never
invoked. -/
theorem measureKernelFailure_failsClosed (env : Env)
    (h1 : env.tpmErr = false) (h2 : env.policyErr = false)
    (h3 : env.measureErr = true) :
    (runOrchestrator env).cleanupRuns = 1 ∧
      (runOrchestrator env).unmountAllCalls = 1 ∧
      (runOrchestrator env).mounts = 0 ∧
      (runOrchestrator env).released = (if env.scanErr then 0 else env.mounts) ∧
      (runOrchestrator env).exitStatus = some 1 ∧
      (runOrchestrator env).bootInvoked = false := by
  simp [runOrchestrator, unmountAndExit, UnmountAll, h1, h2, h3]

/-- Concrete instance of `measureKernelFailure_failsClosed`. -/
def envMeasureFail : Env :=
  { scanErr := false, mounts := 2, tpmErr := false, policyErr := false
    collectorErrs := [false, true], measureErr := true, parseLogErr := false
    persistErr := false, bootErr := false, debug := false }

theorem measureKernelFailure_failsClosed_witness :
    (runOrchestrator envMeasureFail).cleanupRuns = 1 ∧
      (runOrchestrator envMeasureFail).unmountAllCalls = 1 ∧
      (runOrchestrator envMeasureFail).mounts = 0 ∧
      (runOrchestrator envMeasureFail).released =
        (if envMeasureFail.scanErr then 0 else envMeasureFail.mounts) ∧
      (runOrchestrator envMeasureFail).exitStatus = some 1 ∧
      (runOrchestrator envMeasureFail).bootInvoked = false :=
  measureKernelFailure_failsClosed envMeasureFail rfl rfl rfl

/-- Claim C4: in every run, the cleanup runs exactly once on exit paths
and never otherwise (so a second entry into the grace delay is
impossible), the grace delay runs once per cleanup, the volumes
released over the whole run never exceed — and in fact equal — the
volumes attached, and on the success path (`Boot` invoked and control
transferred) `UnmountAll` runs exactly once, before the launch, and is
not duplicated by the finalizer. -/
theorem cleanup_exactly_once_release_conserved (env : Env) :
    (runOrchestrator env).cleanupRuns =
        (if (runOrchestrator env).exitStatus = none then 0 else 1) ∧
      (runOrchestrator env).graceDelays = (runOrchestrator env).cleanupRuns ∧
      (runOrchestrator env).released + (runOrchestrator env).mounts =
        (if env.scanErr then 0 else env.mounts) ∧
      (if (runOrchestrator env).exitStatus = none then
          (runOrchestrator env).bootInvoked = true ∧
            (runOrchestrator env).unmountCallsAtBoot = 1 ∧
            (runOrchestrator env).unmountAllCalls = 1
        else (runOrchestrator env).cleanupRuns = 1) := by
  obtain ⟨se, m, te, pe, ce, me, ple, pse, be, d⟩ := env
  cases te <;> cases pe <;> cases me <;> cases ple <;> cases pse <;> cases be <;>
    cases se <;> simp [runOrchestrator, unmountAndExit, UnmountAll]

/-- Claim C5: collector failures never abort the run — with the TPM and
policy steps succeeding and exactly one collector failing, every
collector is still executed, the one failure is logged, kernel
measurement is still attempted, and (measurement succeeding) the run
reaches the KernelMeasured state. -/
theorem singleCollectorFailure_nonfatal (env : Env)
    (h1 : env.tpmErr = false) (h2 : env.policyErr = false)
    (h3 : env.measureErr = false)
    (h4 : env.collectorErrs.count true = 1) :
    (runOrchestrator env).collectorsInvoked = env.collectorErrs.length ∧
      (runOrchestrator env).collectorErrsLogged = 1 ∧
      (runOrchestrator env).measureInvoked = true ∧
      OState.kernelMeasured ∈ (runOrchestrator env).visited := by
  cases h5 : env.parseLogErr <;> cases h6 : env.persistErr <;> cases h7 : env.bootErr <;>
    simp [runOrchestrator, unmountAndExit, UnmountAll, h1, h2, h3, h4, h5, h6, h7]

/-- Concrete instance of `singleCollectorFailure_nonfatal`. -/
def envOneCollectorFails : Env :=
  { scanErr := false, mounts := 1, tpmErr := false, policyErr := false
    collectorErrs := [false, true, false], measureErr := false, parseLogErr := false
    persistErr := false, bootErr := false, debug := false }

theorem singleCollectorFailure_nonfatal_witness :
    (runOrchestrator envOneCollectorFails).collectorsInvoked =
        envOneCollectorFails.collectorErrs.length ∧
      (runOrchestrator envOneCollectorFails).collectorErrsLogged = 1 ∧
      (runOrchestrator envOneCollectorFails).measureInvoked = true ∧
      OState.kernelMeasured ∈ (runOrchestrator envOneCollectorFails).visited :=
  singleCollectorFailure_nonfatal envOneCollectorFails rfl rfl rfl (by decide)

/-! ## Theorems: netroot descriptor parsing -/

/-- Claim C6: on a netroot value that is present, `scanIscsiDrives`
produces a parse error exactly when one of the three structural rules
is violated (`::` split count ≠ 3, `:@` split count outside 2..3, or
first `:@` segment ≠ "iscsi"); the attach (`iscsinl.MountIscsi`) is
attempted exactly when the structure is accepted and the initiator
value is present — so no attach is ever attempted on a parse failure;
and a missing netroot value is a missing-flag error, not a parse
error. -/
theorem netroot_parseErr_iff_structural (val : String)
    (initiator : Option String) (attachRes : Except String (List String)) :
    ((scanIscsiDrives (some val) initiator attachRes).isParseErr = !structOK val) ∧
      ((scanIscsiDrives (some val) initiator attachRes).attachAttempted =
        (structOK val && initiator.isSome)) ∧
      (scanIscsiDrives none initiator attachRes).isParseErr = false := by
  refine ⟨?_, ?_, rfl⟩ <;>
    obtain _ | i := initiator <;> obtain e | devs := attachRes <;>
      (simp only [scanIscsiDrives]
       split_ifs with h1 h2 h3 <;>
        simp_all [ScanResult.isParseErr, ScanResult.attachAttempted, structOK] <;>
        omega)

/-- Claim C10: in the alternate variant, any netroot value passing the
structural checks whose `:@` split has exactly two segments and whose
address segment splits on `","` into exactly two parts (the documented
portal-group form, e.g. head `iscsi:@10.196.210.62,2`) drives the
`group = tmp[2]` assignment into an out-of-range index of the
two-element split: the run panics before any initiator lookup or
attach. -/
theorem altScan_portalGroup_out_of_range (val : String)
    (initiator : Option String) (attachRes : Except String String)
    (h1 : structOK val = true)
    (h2 : (strSplit ((strSplit val "::").getD 0 "") ":@").length = 2)
    (h3 : (strSplit ((strSplit ((strSplit val "::").getD 0 "") ":@").getD 1 "") ",").length = 2) :
    scanIscsiDrivesAlt (some val) initiator attachRes = AltScanResult.panicked := by
  simp only [structOK, Bool.and_eq_true, beq_iff_eq, decide_eq_true_eq] at h1
  obtain ⟨⟨⟨hlen, _⟩, _⟩, hiscsi⟩ := h1
  simp only [List.getD_eq_getElem?_getD] at hlen hiscsi h2 h3
  simp only [scanIscsiDrivesAlt, List.getD_eq_getElem?_getD, hlen, hiscsi, h2, h3]
  have hnone : (strSplit ((strSplit val "::")[0]?.getD "") ":@")[2]? = none :=
    List.getElem?_eq_none (by omega)
  simp [hnone]

theorem altScan_portalGroup_out_of_range_witness :
    scanIscsiDrivesAlt
        (some "iscsi:@10.196.210.62,2::3260::iqn.1986-03.com.sun:ovs112-boot")
        (some "iqn.1988-12.com.oracle:ovs112") (Except.ok "") =
      AltScanResult.panicked :=
  altScan_portalGroup_out_of_range
    "iscsi:@10.196.210.62,2::3260::iqn.1986-03.com.sun:ovs112-boot"
    (some "iqn.1988-12.com.oracle:ovs112") (Except.ok "")
    (by decide) (by decide) (by decide)

/-! ## Theorems: remote-volume attach failure across the two variants -/

/-- Claim C7, counterexample: in the alternate variant a missing
netroot value — a failure the claim calls non-fatal — terminates the
process: `init` exits with status 1, and the boot flow never begins,
so trust-anchor acquisition is never reached. -/
theorem scanFailure_alt_init_exits :
    altInit none (some "iqn.1988-12.com.oracle:ovs112") (Except.ok "") =
        AltInitResult.exited 1 ∧
      altInit none (some "iqn.1988-12.com.oracle:ovs112") (Except.ok "") ≠
        AltInitResult.proceed := by
  decide

/-- Concrete environment for the attach-failure theorems. -/
def envScanFail : Env :=
  { scanErr := true, mounts := 0, tpmErr := false, policyErr := false
    collectorErrs := [], measureErr := false, parseLogErr := false
    persistErr := false, bootErr := false, debug := false }

/-- Claim C7 (amended): in the primary orchestrator (`main` in
uinit.go) failure of the remote-volume attach step is non-fatal — the
error is logged, trust-anchor acquisition still runs, and the states
visited and the exit status are the same as in a run whose attach
succeeded; in the alternate variant (gunzip.go), any `scanIscsiDrives`
failure in `init` terminates the process with status 1 before `main`,
and with it trust-anchor acquisition, can begin. -/
theorem scanFailure_nonfatal_primary_fatal_alt (env : Env)
    (netroot initiator : Option String) (attachRes : Except String String)
    (e : String)
    (hfail : scanIscsiDrivesAlt netroot initiator attachRes = .missingFlag e ∨
             scanIscsiDrivesAlt netroot initiator attachRes = .parseErr e ∨
             scanIscsiDrivesAlt netroot initiator attachRes = .attachErr e) :
    (runOrchestrator env).tpmInvoked = true ∧
      (runOrchestrator env).scanErrLogged = env.scanErr ∧
      (runOrchestrator { env with scanErr := true }).visited =
        (runOrchestrator { env with scanErr := false }).visited ∧
      (runOrchestrator { env with scanErr := true }).exitStatus =
        (runOrchestrator { env with scanErr := false }).exitStatus ∧
      altInit netroot initiator attachRes = AltInitResult.exited 1 := by
  obtain ⟨se, m, te, pe, ce, me, ple, pse, be, d⟩ := env
  have halt : altInit netroot initiator attachRes = AltInitResult.exited 1 := by
    rcases hfail with h | h | h <;> simp [altInit, h]
  refine ⟨?_, ?_, ?_, ?_, halt⟩ <;>
    cases te <;> cases pe <;> cases me <;> cases ple <;> cases pse <;> cases be <;>
      simp [runOrchestrator, unmountAndExit, UnmountAll]

theorem scanFailure_nonfatal_primary_fatal_alt_witness :
    (runOrchestrator envScanFail).tpmInvoked = true ∧
      (runOrchestrator envScanFail).scanErrLogged = envScanFail.scanErr ∧
      (runOrchestrator { envScanFail with scanErr := true }).visited =
        (runOrchestrator { envScanFail with scanErr := false }).visited ∧
      (runOrchestrator { envScanFail with scanErr := true }).exitStatus =
        (runOrchestrator { envScanFail with scanErr := false }).exitStatus ∧
      altInit none (some "iqn.1988-12.com.oracle:ovs112") (Except.ok "x") =
        AltInitResult.exited 1 :=
  scanFailure_nonfatal_primary_fatal_alt envScanFail none
    (some "iqn.1988-12.com.oracle:ovs112") (Except.ok "x") "netroot" (Or.inl rfl)

/-! ## Theorems: log buffering and the failure-exit dump -/

/-- `logPrint` writes each folded message to the state's current
output, never changes that output, and accumulates into the builder
exactly when the output is the builder. -/
theorem foldl_logPrint_transcript (msgs : List String) (st : LogState) :
    (msgs.foldl logPrint st).writes = st.writes ++ msgs.map (fun m => (st.out, m)) ∧
      (msgs.foldl logPrint st).out = st.out ∧
      (msgs.foldl logPrint st).builder =
        (if st.out = Sink.builder then st.builder ++ msgs else st.builder) := by
  induction msgs generalizing st with
  | nil => simp
  | cons m ms ih =>
    obtain ⟨hw, ho, hb⟩ := ih (logPrint st m)
    refine ⟨?_, ?_, ?_⟩ <;>
      simp only [List.foldl_cons, hw, ho, hb, logPrint, List.map_cons] <;>
        split_ifs <;> simp_all

/-- Claim C9, counterexample: in a non-debug run that logs "hello" and
fails, the buffered text is dumped to standard output, and never
reaches standard error — so "dumped to the standard error stream" is
false of this run. -/
theorem nondebug_dump_not_stderr :
    (Sink.stdout, "hello") ∈ (runLog false ["hello"] true).writes ∧
      (Sink.stderr, "hello") ∉ (runLog false ["hello"] true).writes := by
  decide

/-- Claim C9 (amended): in debug mode every informational message is
written immediately to standard error; in non-debug mode every
informational message goes to the `logBuilder` buffer and not to a
terminal stream, and on a failure exit the final write of the run dumps
the whole buffered text to the standard output stream. -/
theorem nondebug_buffers_and_dumps_to_stdout (msgs : List String) :
    ((msgs.foldl logPrint (checkDebugFlagLog true)).writes =
        (checkDebugFlagLog true).writes ++ msgs.map (fun m => (Sink.stderr, m))) ∧
      ((msgs.foldl logPrint (checkDebugFlagLog false)).writes =
        (checkDebugFlagLog false).writes ++ msgs.map (fun m => (Sink.builder, m))) ∧
      ((runLog false msgs true).writes.getLast? =
        some (Sink.stdout,
          String.join ((msgs.foldl logPrint (checkDebugFlagLog false)).builder))) := by
  have houtT : (checkDebugFlagLog true).out = Sink.stderr := rfl
  have houtF : (checkDebugFlagLog false).out = Sink.builder := rfl
  obtain ⟨hwT, -, -⟩ := foldl_logPrint_transcript msgs (checkDebugFlagLog true)
  obtain ⟨hwF, hoF, hbF⟩ := foldl_logPrint_transcript msgs (checkDebugFlagLog false)
  refine ⟨by rw [hwT, houtT], by rw [hwF, houtF], ?_⟩
  simp [runLog, unmountAndExitDump, logPrint, hoF, houtF]
